import Mathlib

/-!
Verification development for the GAS job-lifecycle workers.

The definitions below are a shallow embedding of the four worker programs
(`archive.py`, `restore.py`, `thaw.py`, `annotator.py`).  Each worker's
per-message processing step is embedded as a pure function from an explicit
state (DynamoDB job-record table, S3 object store, Glacier vault) to a new
state together with an outcome describing whether the SQS message was
acknowledged (deleted), skipped without acknowledgement, or whether an
uncaught exception escaped the polling loop.  External calls whose results
the code branches on (Glacier `initiate_job`, the compute subprocess) are
passed in as explicit oracles.
-/

/-- A DynamoDB job record, restricted to the attributes the workers read or
write: `job_id` (key), `user_id`, `user_role`, `job_status`, optional
`complete_time`, `s3_key_result_file`, `results_file_archive_id` and
`glacier_restore_job_id` (absent = `none`). -/
structure JobRecord where
  job_id : String
  user_id : String
  user_role : String
  job_status : String
  complete_time : Option String
  s3_key_result_file : Option String
  results_file_archive_id : Option String
  glacier_restore_job_id : Option String
deriving Repr, DecidableEq

/-- The DynamoDB table as a list of job records. -/
abbrev RecordStore := List JobRecord

/-- Embedding of `table.get_item(Key={'job_id': job_id})`. -/
def getItem (tbl : RecordStore) (jid : String) : Option JobRecord :=
  tbl.find? (fun r => r.job_id == jid)

/-- Embedding of `table.update_item(Key={'job_id': jid}, ...)`: apply `f` to
the record(s) with the given key. -/
def updateRecord (tbl : RecordStore) (jid : String) (f : JobRecord → JobRecord) :
    RecordStore :=
  tbl.map (fun r => if r.job_id == jid then f r else r)

/-- The S3 object store: a list of `((bucket, key), content)` entries. -/
abbrev S3Store := List ((String × String) × String)

/-- Embedding of an S3 object fetch (`download_file` / `get_object`). -/
def s3Get (st : S3Store) (bucket key : String) : Option String :=
  (st.find? (fun e => e.1 == (bucket, key))).map (fun e => e.2)

/-- Embedding of `s3.delete_object(Bucket=bucket, Key=key)`. -/
def s3DeleteObj (st : S3Store) (bucket key : String) : S3Store :=
  st.filter (fun e => !(e.1 == (bucket, key)))

/-- Embedding of `s3.put_object` / `s3.upload_file`. -/
def s3PutObj (st : S3Store) (bucket key content : String) : S3Store :=
  ((bucket, key), content) :: s3DeleteObj st bucket key

/-! ## Archival Worker (`archive.py`) -/

/-- State visible to the Archival Worker: the job table, the hot S3 store,
the Glacier vault (archive id paired with content) and a counter used to
mint fresh archive ids for `glacier.upload_archive`. -/
structure ArchiveState where
  table : RecordStore
  s3 : S3Store
  glacier : List (String × String)
  nextArchiveId : Nat
deriving Repr, DecidableEq

/-- Fresh archive id returned by the n-th `glacier.upload_archive` call. -/
def freshArchiveId (n : Nat) : String :=
  "glacier-archive-" ++ toString n

/-- The fields of a completion message that `archive.py` reads, after JSON
parsing: whether the SNS envelope has a `Message` key, and the inner
payload's `job_id`, `s3_results_bucket` and `s3_key_result_file`. -/
structure ArchiveMsg where
  hasMessageKey : Bool
  job_id : Option String
  s3_results_bucket : String
  s3_key_result_file : String
deriving Repr, DecidableEq

/-- Side effects performed by `archive_file`, in program order. -/
inductive ArchiveEffect where
  | s3Download (bucket key : String)
  | glacierUpload (archiveId content : String)
  | recordUpdate (jobId archiveId : String)
  | s3Delete (bucket key : String)
deriving Repr, DecidableEq

/-- The effect sequence of a successful `archive_file` run, in the order the
source performs them: S3 download, Glacier upload, DynamoDB update recording
`results_file_archive_id`, S3 delete. -/
def archiveEffects (st : ArchiveState) (jid bucket key content : String) :
    List ArchiveEffect :=
  [ArchiveEffect.s3Download bucket key,
   ArchiveEffect.glacierUpload (freshArchiveId st.nextArchiveId) content,
   ArchiveEffect.recordUpdate jid (freshArchiveId st.nextArchiveId),
   ArchiveEffect.s3Delete bucket key]

/-- State transition of a single `archive_file` side effect. -/
def applyArchiveEffect (st : ArchiveState) : ArchiveEffect → ArchiveState
  | ArchiveEffect.s3Download _ _ => st
  | ArchiveEffect.glacierUpload aid content =>
      { st with glacier := (aid, content) :: st.glacier,
                nextArchiveId := st.nextArchiveId + 1 }
  | ArchiveEffect.recordUpdate jid aid =>
      let tbl := updateRecord st.table jid
        (fun r => { r with results_file_archive_id := some aid })
      { st with table := tbl }
  | ArchiveEffect.s3Delete bucket key =>
      { st with s3 := s3DeleteObj st.s3 bucket key }

/-- Embedding of `archive_file(job_id, s3_bucket, s3_key)`: downloads the
object (raising `ClientError`, i.e. `Except.error`, when absent), uploads it
to Glacier, records the archive id on the job record, deletes the S3 copy.
Returns the new state, the archive id, and the effect trace. -/
def archive_file (st : ArchiveState) (jid bucket key : String) :
    Except Unit (ArchiveState × String × List ArchiveEffect) :=
  match s3Get st.s3 bucket key with
  | none => Except.error ()
  | some content =>
      let effs := archiveEffects st jid bucket key content
      Except.ok (effs.foldl applyArchiveEffect st, freshArchiveId st.nextArchiveId, effs)

/-- Outcome of processing one SQS message in `archive.py`'s `poll_sqs` loop:
`skippedNoAck` models `continue` without `delete_message` (the message stays
in the queue), `ackedNoAction` the premium-user branch (message deleted, no
other effect), `ackedArchived` the free-user branch after a successful
`archive_file`, and `crashed` an exception escaping the loop (no handler in
`poll_sqs`). -/
inductive ArchiveResult where
  | skippedNoAck
  | ackedNoAction
  | ackedArchived (archiveId : String)
  | crashed
deriving Repr, DecidableEq

/-- Embedding of the body of `archive.py`'s `poll_sqs` for one message. -/
def processArchiveMessage (st : ArchiveState) (msg : ArchiveMsg) :
    ArchiveState × ArchiveResult :=
  if msg.hasMessageKey then
    match msg.job_id with
    | none => (st, ArchiveResult.skippedNoAck)
    | some jid =>
        match getItem st.table jid with
        | none => (st, ArchiveResult.skippedNoAck)
        | some item =>
            if item.user_role == "free_user" then
              match archive_file st jid msg.s3_results_bucket msg.s3_key_result_file with
              | Except.error _ => (st, ArchiveResult.crashed)
              | Except.ok (st2, aid, _) => (st2, ArchiveResult.ackedArchived aid)
            else (st, ArchiveResult.ackedNoAction)
  else (st, ArchiveResult.skippedNoAck)

/-- Seconds the free-user branch waits before archiving: `time.sleep(5)`. -/
def archiveSleepSeconds : Nat := 5

/-- The retention grace period the code's own comment announces ("Waiting for
5 minutes before archiving") and that `views.py` enforces for free-user
access (300 seconds = 5 minutes). -/
def retentionGracePeriodSeconds : Nat := 300

/-- Wall-clock time at which the free-user branch performs the archive when
the completion message is received at `receiveTime`. -/
def archiveTime (receiveTime : Nat) : Nat :=
  receiveTime + archiveSleepSeconds

/-- The result bytes are present in at least one of the two stores. -/
def resultPresent (st : ArchiveState) (bucket key content : String) : Prop :=
  s3Get st.s3 bucket key = some content ∨ content ∈ st.glacier.map Prod.snd

/-! ## Retrieval Worker (`restore.py`) -/

/-- Glacier retrieval tier, the `Tier` job parameter of `initiate_job`. -/
inductive Tier where
  | expedited
  | standard
deriving Repr, DecidableEq

/-- Outcome of one `glacier_client.initiate_job` call: success returning a
retrieval job id, a `ClientError` with code `InsufficientCapacityException`,
or any other `ClientError`. -/
inductive InitiateResult where
  | ok (jobId : String)
  | insufficientCapacity
  | otherError
deriving Repr, DecidableEq

/-- Embedding of `initiate_glacier_retrieval(item)`.  The behaviour of the
Glacier service is passed in as `oracle`, mapping a tier and archive id to
the call's outcome.  Returns the updated table and the list of tiers at
which `initiate_job` was called, in order. -/
def initiate_glacier_retrieval (oracle : Tier → String → InitiateResult)
    (tbl : RecordStore) (item : JobRecord) : RecordStore × List Tier :=
  match item.results_file_archive_id with
  | none => (tbl, [])
  | some aid =>
      match oracle Tier.expedited aid with
      | InitiateResult.ok jid =>
          (updateRecord tbl item.job_id
            (fun r => { r with glacier_restore_job_id := some jid }),
           [Tier.expedited])
      | InitiateResult.insufficientCapacity =>
          match oracle Tier.standard aid with
          | InitiateResult.ok jid =>
              (updateRecord tbl item.job_id
                (fun r => { r with glacier_restore_job_id := some jid }),
               [Tier.expedited, Tier.standard])
          | _ => (tbl, [Tier.expedited, Tier.standard])
      | InitiateResult.otherError => (tbl, [Tier.expedited])

/-- Embedding of `restore_user_data(user_id)`: scan the table for the user's
records and, for each record carrying `results_file_archive_id`, call
`initiate_glacier_retrieval`.  Returns the updated table and all tiers
called across the items. -/
def restore_user_data (oracle : Tier → String → InitiateResult)
    (tbl : RecordStore) (uid : String) : RecordStore × List Tier :=
  let items := tbl.filter (fun r => r.user_id == uid)
  items.foldl
    (fun acc item =>
      if item.results_file_archive_id.isSome then
        let step := initiate_glacier_retrieval oracle acc.1 item
        (step.1, acc.2 ++ step.2)
      else acc)
    (tbl, [])

/-- The fields of a restore-request message that `restore.py` reads: presence
of the envelope's `Message` key and the inner payload's `user_id` (which the
code also treats as missing when it is the empty string, via `if not
user_id`). -/
structure RestoreMsg where
  hasMessageKey : Bool
  user_id : Option String
deriving Repr, DecidableEq

/-- Outcome of one message in `restore.py`'s `poll_sqs`: `skippedNoAck`
models `continue` without `delete_message`; `acked` models reaching the
`delete_message` call after `restore_user_data` returns. -/
inductive RestoreResult where
  | skippedNoAck
  | acked
deriving Repr, DecidableEq

/-- Embedding of the body of `restore.py`'s `poll_sqs` for one message. -/
def processRestoreMessage (oracle : Tier → String → InitiateResult)
    (tbl : RecordStore) (msg : RestoreMsg) : RecordStore × RestoreResult :=
  if msg.hasMessageKey then
    match msg.user_id with
    | none => (tbl, RestoreResult.skippedNoAck)
    | some uid =>
        if uid == "" then (tbl, RestoreResult.skippedNoAck)
        else ((restore_user_data oracle tbl uid).1, RestoreResult.acked)
  else (tbl, RestoreResult.skippedNoAck)

/-! ## Thaw Worker (`thaw.py`) -/

/-- State visible to the Thaw Worker: the job table, the hot S3 store, the
Glacier vault of archives, and the Glacier retrieval jobs whose output is
fetchable via `get_job_output` (retrieval job id paired with content). -/
structure ThawState where
  table : RecordStore
  s3 : S3Store
  glacier : List (String × String)
  glacierJobs : List (String × String)
deriving Repr, DecidableEq

/-- The S3 bucket `thaw.py` uploads restored objects to (config value
`results_bucket`). -/
def results_bucket : String := "gas-results"

/-- The fields of an archive-retrieval-completion message that `thaw.py`
reads: presence of the envelope's `Message` key and the inner payload's
`JobId` and `ArchiveId` (read with `[]`, so absence raises `KeyError`). -/
structure ThawMsg where
  hasMessageKey : Bool
  jobIdField : Option String
  archiveIdField : Option String
deriving Repr, DecidableEq

/-- Side effects performed while processing one thaw message, in program
order. -/
inductive ThawEffect where
  | glacierFetch (jobId : String)
  | s3Upload (bucket key content : String)
  | glacierDeleteArchive (archiveId : String)
  | recordClearRefs (jobId : String)
deriving Repr, DecidableEq

/-- Outcome of one message in `thaw.py`'s `poll_sqs`: `crashed` models an
uncaught exception (`KeyError` from a missing field; only `ClientError` is
caught), `skippedNoAck` models `continue` without `delete_message`, `acked`
models reaching `delete_message`. -/
inductive ThawResult where
  | crashed
  | skippedNoAck
  | acked
deriving Repr, DecidableEq

/-- Embedding of `get_s3_key_result_file(archive_id)`: query the table's
secondary index for the record whose `results_file_archive_id` equals the
given archive id. -/
def get_s3_key_result_file (tbl : RecordStore) (aid : String) : Option JobRecord :=
  tbl.find? (fun r => r.results_file_archive_id == some aid)

/-- Lookup of a Glacier retrieval job's output (`glacier.get_job_output`);
`none` models the call raising `ClientError`. -/
def lookupJobOutput (jobs : List (String × String)) (gjid : String) : Option String :=
  (jobs.find? (fun e => e.1 == gjid)).map (fun e => e.2)

/-- Embedding of the body of `thaw.py`'s `poll_sqs` for one message.
Returns the new state, the acknowledgement outcome, and the effect trace in
program order: Glacier fetch, S3 upload, Glacier archive delete, record
update removing `results_file_archive_id` and `glacier_restore_job_id`. -/
def processThawMessage (st : ThawState) (msg : ThawMsg) :
    ThawState × ThawResult × List ThawEffect :=
  if msg.hasMessageKey then
    match msg.jobIdField, msg.archiveIdField with
    | none, _ => (st, ThawResult.crashed, [])
    | some _, none => (st, ThawResult.crashed, [])
    | some gjid, some aid =>
        match lookupJobOutput st.glacierJobs gjid with
        | none => (st, ThawResult.skippedNoAck, [ThawEffect.glacierFetch gjid])
        | some content =>
            match get_s3_key_result_file st.table aid with
            | none => (st, ThawResult.skippedNoAck, [ThawEffect.glacierFetch gjid])
            | some item =>
                match item.s3_key_result_file with
                | none => (st, ThawResult.crashed, [ThawEffect.glacierFetch gjid])
                | some key =>
                    let tbl := updateRecord st.table item.job_id
                      (fun r => { r with results_file_archive_id := none,
                                         glacier_restore_job_id := none })
                    let st2 : ThawState :=
                      { st with s3 := s3PutObj st.s3 results_bucket key content,
                                glacier := st.glacier.filter (fun e => !(e.1 == aid)),
                                table := tbl }
                    (st2, ThawResult.acked,
                     [ThawEffect.glacierFetch gjid,
                      ThawEffect.s3Upload results_bucket key content,
                      ThawEffect.glacierDeleteArchive aid,
                      ThawEffect.recordClearRefs item.job_id])
  else (st, ThawResult.crashed, [])

/-- Discriminator for the Glacier archive-delete effect. -/
def isGlacierDelete : ThawEffect → Bool
  | ThawEffect.glacierDeleteArchive _ => true
  | _ => false

/-- Discriminator for the S3 upload effect. -/
def isS3Upload : ThawEffect → Bool
  | ThawEffect.s3Upload _ _ _ => true
  | _ => false

/-! ## Completion Worker (`annotator.py`) -/

/-- State visible to the Completion Worker: the job table and the inputs S3
bucket contents. -/
structure AnnState where
  table : RecordStore
  inputsS3 : S3Store
deriving Repr, DecidableEq

/-- Config value `inputs_bucket` from `ann_config.ini`. -/
def inputs_bucket : String := "gas-inputs"

/-- Config value `input_key_prefix` from `ann_config.ini` (renamed here to
avoid clashing with reserved suffixes). -/
def input_key_pfx : String := "jcorning/"

/-- The fields of a submission message that `annotator.py` reads: presence of
the envelope's `Message` key and the inner payload's `job_id` and
`s3_key_input_file` (absence raises `KeyError`, which `process_annotation`
catches and turns into `return False`). -/
structure AnnMsg where
  hasMessageKey : Bool
  job_id : Option String
  s3_key_input_file : Option String
deriving Repr, DecidableEq

/-- Embedding of `update_job_status(job_id, status)`: a DynamoDB update that
sets only the `job_status` attribute. -/
def update_job_status (tbl : RecordStore) (jid status : String) : RecordStore :=
  updateRecord tbl jid (fun r => { r with job_status := status })

/-- Embedding of `process_annotation(job_details)`.  The compute subprocess
(`anntools/run.py`, waited on via `process.wait()`) is abstracted by its
`returncode`.  Returns the new state and the function's boolean result. -/
def process_annotation (returncode : Nat) (st : AnnState)
    (jid0 : Option String) (inputFile : Option String) : AnnState × Bool :=
  match jid0, inputFile with
  | none, _ => (st, false)
  | some _, none => (st, false)
  | some jid, some fname =>
      let key := if fname.startsWith input_key_pfx then fname
                 else input_key_pfx ++ fname
      match s3Get st.inputsS3 inputs_bucket key with
      | none => (st, false)
      | some _ =>
          let st1 : AnnState := { st with table := update_job_status st.table jid "RUNNING" }
          if returncode == 0 then
            ({ st1 with table := update_job_status st1.table jid "COMPLETED" }, true)
          else (st1, false)

/-- Outcome of one message in `annotator.py`'s `main` loop: the message is
deleted only when `process_annotation` returns `True`. -/
inductive AnnResult where
  | acked
  | notAcked
deriving Repr, DecidableEq

/-- Embedding of the body of `annotator.py`'s `main` for one message. -/
def processAnnMessage (returncode : Nat) (st : AnnState) (msg : AnnMsg) :
    AnnState × AnnResult :=
  if msg.hasMessageKey then
    let step := process_annotation returncode st msg.job_id msg.s3_key_input_file
    (step.1, if step.2 then AnnResult.acked else AnnResult.notAcked)
  else (st, AnnResult.notAcked)

/-! ## Demo states used by witnesses and counterexamples -/

/-- Free-user record whose result is already archived under id "a0". -/
def demoArchivedRecord : JobRecord :=
  { job_id := "j1", user_id := "u1", user_role := "free_user",
    job_status := "COMPLETED", complete_time := some "2024-06-01 00:00:00",
    s3_key_result_file := some "u1/j1.annot.vcf",
    results_file_archive_id := some "a0", glacier_restore_job_id := none }

/-- Archival Worker state after a crash between the record update and the S3
delete: the record carries archive id "a0", the Glacier vault holds that
archive, and the S3 result copy is still present. -/
def redeliveredArchiveState : ArchiveState :=
  { table := [demoArchivedRecord],
    s3 := [(("gas-results", "u1/j1.annot.vcf"), "res-bytes")],
    glacier := [("a0", "res-bytes")], nextArchiveId := 0 }

/-- The redelivered completion message for job "j1". -/
def redeliveredArchiveMsg : ArchiveMsg :=
  { hasMessageKey := true, job_id := some "j1",
    s3_results_bucket := "gas-results",
    s3_key_result_file := "u1/j1.annot.vcf" }

/-- Claim C1 (code bug).  The spec requires the Archival Worker to be
idempotent under redelivery: if `archive_reference` is already set, skip
storage, only delete the object-store copy, and acknowledge.  The code
performs no such check: reprocessing a completion message for the
already-archived job "j1" performs a second Glacier store (the vault grows
to two archives) and overwrites the recorded archive reference with the
fresh id, which differs from the previously recorded "a0". -/
theorem archival_redelivery_double_store :
    (processArchiveMessage redeliveredArchiveState redeliveredArchiveMsg).2
      = ArchiveResult.ackedArchived (freshArchiveId 0) ∧
    (processArchiveMessage redeliveredArchiveState redeliveredArchiveMsg).1.glacier.length = 2 ∧
    (getItem (processArchiveMessage redeliveredArchiveState redeliveredArchiveMsg).1.table
        "j1").map (fun r => r.results_file_archive_id) = some (some (freshArchiveId 0)) ∧
    freshArchiveId 0 ≠ "a0" := by
  refine ⟨rfl, rfl, rfl, by decide⟩

/-- Claim C2 theorem.  For any completion message whose job record belongs to
a premium user, the Archival Worker deletes the message and performs no
archival action: the state (job table, S3 store, Glacier vault) is returned
unchanged with outcome `ackedNoAction`.  The premium branch involves no time
comparison, so this holds regardless of elapsed time since completion. -/
theorem premium_job_never_archived (st : ArchiveState) (msg : ArchiveMsg)
    (jid : String) (item : JobRecord)
    (hkey : msg.hasMessageKey = true) (hjid : msg.job_id = some jid)
    (hitem : getItem st.table jid = some item)
    (hrole : item.user_role = "premium_user") :
    processArchiveMessage st msg = (st, ArchiveResult.ackedNoAction) := by
  simp [processArchiveMessage, hkey, hjid, hitem, hrole]

/-- Premium-user record used to witness the premium exemption. -/
def premiumDemoRecord : JobRecord :=
  { job_id := "p1", user_id := "u2", user_role := "premium_user",
    job_status := "COMPLETED", complete_time := some "2024-06-01 00:00:00",
    s3_key_result_file := some "u2/p1.annot.vcf",
    results_file_archive_id := none, glacier_restore_job_id := none }

/-- Archival Worker state holding the premium user's completed job. -/
def premiumDemoState : ArchiveState :=
  { table := [premiumDemoRecord],
    s3 := [(("gas-results", "u2/p1.annot.vcf"), "bytes")],
    glacier := [], nextArchiveId := 0 }

/-- Completion message for the premium user's job "p1". -/
def premiumDemoMsg : ArchiveMsg :=
  { hasMessageKey := true, job_id := some "p1",
    s3_results_bucket := "gas-results",
    s3_key_result_file := "u2/p1.annot.vcf" }

/-- Witness for claim C2 at a concrete state and message. -/
theorem premium_job_never_archived_witness :
    premiumDemoMsg.hasMessageKey = true ∧
    premiumDemoMsg.job_id = some "p1" ∧
    getItem premiumDemoState.table "p1" = some premiumDemoRecord ∧
    premiumDemoRecord.user_role = "premium_user" ∧
    processArchiveMessage premiumDemoState premiumDemoMsg
      = (premiumDemoState, ArchiveResult.ackedNoAction) :=
  ⟨rfl, rfl, rfl, rfl,
   premium_job_never_archived premiumDemoState premiumDemoMsg "p1" premiumDemoRecord
     rfl rfl rfl rfl⟩

/-- Not-yet-archived free-user record completed at time 0. -/
def graceDemoRecord : JobRecord :=
  { job_id := "g1", user_id := "u3", user_role := "free_user",
    job_status := "COMPLETED", complete_time := some "0",
    s3_key_result_file := some "u3/g1.annot.vcf",
    results_file_archive_id := none, glacier_restore_job_id := none }

/-- Archival Worker state holding the free user's completed job. -/
def graceDemoState : ArchiveState :=
  { table := [graceDemoRecord],
    s3 := [(("gas-results", "u3/g1.annot.vcf"), "bytes")],
    glacier := [], nextArchiveId := 0 }

/-- Completion message for the free user's job "g1". -/
def graceDemoMsg : ArchiveMsg :=
  { hasMessageKey := true, job_id := some "g1",
    s3_results_bucket := "gas-results",
    s3_key_result_file := "u3/g1.annot.vcf" }

/-- Claim C3 (code bug).  The code's own comment and log line say "Waiting
for 5 minutes before archiving", and `views.py` uses 300 seconds as the
free-user window, but the call is `time.sleep(5)`: five seconds.  For a job
completed at time 0 whose completion message arrives at time 0, the worker
does archive the result (outcome `ackedArchived`), and it does so at
`archiveTime 0 = 5`, strictly before the announced 300-second retention
grace period since completion has elapsed. -/
theorem free_user_archived_before_grace_period :
    (processArchiveMessage graceDemoState graceDemoMsg).2
      = ArchiveResult.ackedArchived (freshArchiveId 0) ∧
    archiveTime 0 < 0 + retentionGracePeriodSeconds := by
  refine ⟨rfl, by decide⟩

/-- Claim C10 theorem.  Within one `archive_file` run the effect order is S3
download, Glacier upload, record update, S3 delete; starting from any state
in which the result bytes are in the object store, after any prefix of that
effect sequence (i.e. at every possible crash point) the bytes are present
in the object store or in the Glacier vault. -/
theorem archival_no_loss (st : ArchiveState) (jid bucket key content : String)
    (h : s3Get st.s3 bucket key = some content) (n : Nat) :
    resultPresent
      (((archiveEffects st jid bucket key content).take n).foldl applyArchiveEffect st)
      bucket key content := by
  match n with
  | 0 => exact Or.inl h
  | 1 => exact Or.inl h
  | 2 => exact Or.inr (List.mem_cons_self _ _)
  | 3 => exact Or.inr (List.mem_cons_self _ _)
  | (m + 4) =>
      rw [List.take_of_length_le (by simp [archiveEffects])]
      exact Or.inr (List.mem_cons_self _ _)

/-- Archival Worker state used to witness the no-loss invariant. -/
def noLossDemoState : ArchiveState :=
  { table := [], s3 := [(("gas-results", "k"), "res")],
    glacier := [], nextArchiveId := 0 }

/-- Witness for claim C10 at a concrete state, taking the full prefix. -/
theorem archival_no_loss_witness :
    s3Get noLossDemoState.s3 "gas-results" "k" = some "res" ∧
    resultPresent
      (((archiveEffects noLossDemoState "g1" "gas-results" "k" "res").take 4).foldl
        applyArchiveEffect noLossDemoState) "gas-results" "k" "res" :=
  ⟨rfl, archival_no_loss noLossDemoState "g1" "gas-results" "k" "res" rfl 4⟩

/-- Claim C4 theorem.  For any record carrying an archive id, if Glacier
rejects the expedited retrieval with `InsufficientCapacityException`, the
Retrieval Worker calls `initiate_job` exactly at the tiers
`[expedited, standard]` — one standard retry and nothing more (no internal
loop) — and if the standard attempt also fails (returns any non-success) the
table is left unchanged, so no retrieval reference is persisted. -/
theorem retrieval_tier_fallback (oracle : Tier → String → InitiateResult)
    (tbl : RecordStore) (item : JobRecord) (aid : String)
    (harch : item.results_file_archive_id = some aid)
    (hexp : oracle Tier.expedited aid = InitiateResult.insufficientCapacity) :
    (initiate_glacier_retrieval oracle tbl item).2 = [Tier.expedited, Tier.standard] ∧
    ((∀ j, oracle Tier.standard aid ≠ InitiateResult.ok j) →
      (initiate_glacier_retrieval oracle tbl item).1 = tbl) := by
  constructor
  · cases hstd : oracle Tier.standard aid <;>
      simp [initiate_glacier_retrieval, harch, hexp, hstd]
  · intro hfail
    cases hstd : oracle Tier.standard aid with
    | ok j => exact absurd hstd (hfail j)
    | insufficientCapacity => simp [initiate_glacier_retrieval, harch, hexp, hstd]
    | otherError => simp [initiate_glacier_retrieval, harch, hexp, hstd]

/-- Glacier behaviour that rejects expedited retrievals for capacity and
fails standard retrievals with another error. -/
def fallbackOracle : Tier → String → InitiateResult := fun t _ =>
  match t with
  | Tier.expedited => InitiateResult.insufficientCapacity
  | Tier.standard => InitiateResult.otherError

/-- Archived record used to witness the tier fallback. -/
def fallbackItem : JobRecord :=
  { job_id := "f1", user_id := "u4", user_role := "free_user",
    job_status := "COMPLETED", complete_time := some "2024-06-01 00:00:00",
    s3_key_result_file := some "u4/f1.annot.vcf",
    results_file_archive_id := some "af", glacier_restore_job_id := none }

/-- Witness for claim C4 at a concrete oracle, table and record. -/
theorem retrieval_tier_fallback_witness :
    fallbackItem.results_file_archive_id = some "af" ∧
    fallbackOracle Tier.expedited "af" = InitiateResult.insufficientCapacity ∧
    ((initiate_glacier_retrieval fallbackOracle [fallbackItem] fallbackItem).2
        = [Tier.expedited, Tier.standard] ∧
      ((∀ j, fallbackOracle Tier.standard "af" ≠ InitiateResult.ok j) →
        (initiate_glacier_retrieval fallbackOracle [fallbackItem] fallbackItem).1
          = [fallbackItem])) :=
  ⟨rfl, rfl,
   retrieval_tier_fallback fallbackOracle [fallbackItem] fallbackItem "af" rfl rfl⟩

/-- Record with a retrieval already outstanding: both the archive id and the
in-flight `glacier_restore_job_id` "gjid-old" are set. -/
def outstandingRecord : JobRecord :=
  { job_id := "r1", user_id := "u5", user_role := "free_user",
    job_status := "COMPLETED", complete_time := some "2024-06-01 00:00:00",
    s3_key_result_file := some "u5/r1.annot.vcf",
    results_file_archive_id := some "ar", glacier_restore_job_id := some "gjid-old" }

/-- Glacier behaviour that accepts every initiate call with job id
"gjid-new". -/
def reinitiateOracle : Tier → String → InitiateResult :=
  fun _ _ => InitiateResult.ok "gjid-new"

/-- Claim C7 (code bug).  The spec requires the Retrieval Worker to skip
records that already carry a `retrieval_reference`.  `restore_user_data`
checks only `results_file_archive_id` and never `glacier_restore_job_id`:
processing a restore request for user "u5", whose sole record already has
the outstanding retrieval "gjid-old", re-initiates a retrieval (one
expedited `initiate_job` call) and overwrites the stored reference with
"gjid-new". -/
theorem retrieval_reinitiated_despite_outstanding :
    (restore_user_data reinitiateOracle [outstandingRecord] "u5").2 = [Tier.expedited] ∧
    (restore_user_data reinitiateOracle [outstandingRecord] "u5").1
      = [{ outstandingRecord with glacier_restore_job_id := some "gjid-new" }] ∧
    some "gjid-new" ≠ outstandingRecord.glacier_restore_job_id := by
  refine ⟨rfl, rfl, by decide⟩

/-- A received envelope with no inner `Message` payload, as seen by the
Archival Worker. -/
def malformedEnvelopeArchiveMsg : ArchiveMsg :=
  { hasMessageKey := false, job_id := none,
    s3_results_bucket := "", s3_key_result_file := "" }

/-- A received envelope with no inner `Message` payload, as seen by the
Retrieval Worker. -/
def malformedEnvelopeRestoreMsg : RestoreMsg :=
  { hasMessageKey := false, user_id := none }

/-- Claim C8 (code bug).  On an envelope missing the inner `Message`
payload, both the Archival Worker and the Retrieval Worker do leave every
record unmutated, but neither acknowledges the message: both hit `continue`
without calling `delete_message`, so the outcome is `skippedNoAck` rather
than an acknowledgement, and the malformed message stays in the queue for
redelivery. -/
theorem malformed_envelope_not_acknowledged :
    processArchiveMessage
        { table := [], s3 := [], glacier := [], nextArchiveId := 0 }
        malformedEnvelopeArchiveMsg
      = ({ table := [], s3 := [], glacier := [], nextArchiveId := 0 },
         ArchiveResult.skippedNoAck) ∧
    processRestoreMessage (fun _ _ => InitiateResult.otherError) []
        malformedEnvelopeRestoreMsg
      = ([], RestoreResult.skippedNoAck) ∧
    ArchiveResult.skippedNoAck ≠ ArchiveResult.ackedNoAction := by
  refine ⟨rfl, rfl, by decide⟩

/-- The effect trace of one thaw message is empty, a single Glacier fetch,
or the full fetch-upload-delete-clear sequence, in that order. -/
theorem processThawMessage_effects_shape (st : ThawState) (msg : ThawMsg) :
    (processThawMessage st msg).2.2 = [] ∨
    (∃ g, (processThawMessage st msg).2.2 = [ThawEffect.glacierFetch g]) ∨
    (∃ g b k c a j, (processThawMessage st msg).2.2 =
      [ThawEffect.glacierFetch g, ThawEffect.s3Upload b k c,
       ThawEffect.glacierDeleteArchive a, ThawEffect.recordClearRefs j]) := by
  unfold processThawMessage
  split
  · split
    · exact Or.inl rfl
    · exact Or.inl rfl
    · split
      · exact Or.inr (Or.inl ⟨_, rfl⟩)
      · split
        · exact Or.inr (Or.inl ⟨_, rfl⟩)
        · split
          · exact Or.inr (Or.inl ⟨_, rfl⟩)
          · exact Or.inr (Or.inr ⟨_, _, _, _, _, _, rfl⟩)
  · exact Or.inl rfl

/-- Claim C5 theorem.  In every execution of the Thaw Worker on any state
and message, any prefix of the emitted effect trace that contains the
Glacier archive delete also contains the S3 upload of the retrieved bytes:
the object-store write always precedes the archive delete, so a crash at any
point never finds the archive deleted before the write happened. -/
theorem thaw_upload_precedes_archive_delete (st : ThawState) (msg : ThawMsg) (n : Nat)
    (hdel : ((processThawMessage st msg).2.2.take n).any isGlacierDelete = true) :
    ((processThawMessage st msg).2.2.take n).any isS3Upload = true := by
  rcases processThawMessage_effects_shape st msg with h | ⟨g, h⟩ | ⟨g, b, k, c, a, j, h⟩
  · rw [h] at hdel
    simp at hdel
  · rw [h] at hdel
    cases n with
    | zero => exact Bool.noConfusion hdel
    | succ m =>
        simp [List.take_succ_cons, List.take_nil, isGlacierDelete] at hdel
  · rw [h] at hdel ⊢
    match n with
    | 0 => exact Bool.noConfusion hdel
    | 1 => exact Bool.noConfusion hdel
    | 2 => exact Bool.noConfusion hdel
    | (m + 3) => rfl

/-- Record whose archived result is being thawed: archive id "a2",
retrieval job "gj2". -/
def thawDemoRecord : JobRecord :=
  { job_id := "t2", user_id := "u7", user_role := "premium_user",
    job_status := "COMPLETED", complete_time := some "2024-06-01 00:00:00",
    s3_key_result_file := some "u7/t2.annot.vcf",
    results_file_archive_id := some "a2", glacier_restore_job_id := some "gj2" }

/-- Thaw Worker state in which retrieval job "gj2" has completed. -/
def thawDemoState : ThawState :=
  { table := [thawDemoRecord], s3 := [], glacier := [("a2", "bytes")],
    glacierJobs := [("gj2", "bytes")] }

/-- Retrieval-completion message for job "gj2" / archive "a2". -/
def thawDemoMsg : ThawMsg :=
  { hasMessageKey := true, jobIdField := some "gj2", archiveIdField := some "a2" }

/-- Witness for claim C5: the full trace of a successful thaw contains the
archive delete, and (by the theorem) also the S3 upload. -/
theorem thaw_upload_precedes_archive_delete_witness :
    ((processThawMessage thawDemoState thawDemoMsg).2.2.take 4).any isGlacierDelete = true ∧
    ((processThawMessage thawDemoState thawDemoMsg).2.2.take 4).any isS3Upload = true :=
  ⟨by decide, thaw_upload_precedes_archive_delete thawDemoState thawDemoMsg 4 (by decide)⟩

/-- Record whose archive reference was already cleared by a prior delivery
(archive sub-state NONE). -/
def clearedThawRecord : JobRecord :=
  { job_id := "t1", user_id := "u6", user_role := "premium_user",
    job_status := "COMPLETED", complete_time := some "2024-06-01 00:00:00",
    s3_key_result_file := some "u6/t1.annot.vcf",
    results_file_archive_id := none, glacier_restore_job_id := none }

/-- Thaw Worker state in which no record carries archive id "a9" but the
retrieval job "gj1" output is still fetchable. -/
def clearedThawState : ThawState :=
  { table := [clearedThawRecord], s3 := [], glacier := [],
    glacierJobs := [("gj1", "bytes")] }

/-- Redelivered retrieval-completion message for the already-handled
archive "a9". -/
def clearedThawMsg : ThawMsg :=
  { hasMessageKey := true, jobIdField := some "gj1", archiveIdField := some "a9" }

/-- Claim C6 (code bug).  On a retrieval-completion message whose archive id
matches no record, the Thaw Worker first calls `glacier.get_job_output`
(re-fetching the archived bytes — the fetch effect is in the trace) and then
hits `continue` without `delete_message`: the outcome is `skippedNoAck`, not
an acknowledgement, though no record is mutated. -/
theorem thaw_refetches_and_skips_cleared_record :
    processThawMessage clearedThawState clearedThawMsg
      = (clearedThawState, ThawResult.skippedNoAck, [ThawEffect.glacierFetch "gj1"]) ∧
    ThawEffect.glacierFetch "gj1"
      ∈ (processThawMessage clearedThawState clearedThawMsg).2.2 ∧
    ThawResult.skippedNoAck ≠ ThawResult.acked := by
  refine ⟨rfl, by decide, by decide⟩

/-- Submitted job record in status PENDING with no result fields set. -/
def annDemoRecord : JobRecord :=
  { job_id := "a1", user_id := "u8", user_role := "free_user",
    job_status := "PENDING", complete_time := none,
    s3_key_result_file := none,
    results_file_archive_id := none, glacier_restore_job_id := none }

/-- Completion Worker state holding the pending job and its input object. -/
def annDemoState : AnnState :=
  { table := [annDemoRecord],
    inputsS3 := [((inputs_bucket, input_key_pfx ++ "in.vcf"), "vcf-data")] }

/-- Submission message for job "a1". -/
def annDemoMsg : AnnMsg :=
  { hasMessageKey := true, job_id := some "a1", s3_key_input_file := some "in.vcf" }

/-- Claim C9 (code bug).  On a failed compute step (returncode 1) the
Completion Worker leaves `job_status` at "RUNNING" — it never writes
"FAILED" — and the message is not acknowledged; on a successful compute
step (returncode 0) `update_job_status` writes only `job_status` =
"COMPLETED": `complete_time` and the result key on the record are
untouched. -/
theorem completion_worker_outcome_divergence :
    (getItem (processAnnMessage 1 annDemoState annDemoMsg).1.table "a1").map
        (fun r => r.job_status) = some "RUNNING" ∧
    (processAnnMessage 1 annDemoState annDemoMsg).2 = AnnResult.notAcked ∧
    "RUNNING" ≠ "FAILED" ∧
    getItem (processAnnMessage 0 annDemoState annDemoMsg).1.table "a1"
      = some { annDemoRecord with job_status := "COMPLETED" } := by
  refine ⟨rfl, rfl, by decide, rfl⟩
